import Mathlib

/-!
# Verification of the CAPTCHA challenge-response subsystem

Shallow embedding of the captcha services found in
`src/server/src/modules/captcha/services/captcha.service.js` (the local,
in-process `Map` backend) and the Redis-backed `CaptchaRedisService`
(`src/unnamed/part_019`), together with theorems settling the frozen
claims about them.

Modelling conventions:
* JavaScript strings are modelled as lists of code points (`JSStr`);
  `String.prototype.toLowerCase` is modelled by ASCII case folding
  (captcha alphabets are ASCII alphanumerics).
* Timestamps (`Date.now()`, `new Date()`) are naturals counting
  milliseconds; the several clock reads inside one call are idealized to
  a single instant `now` passed as a parameter.
* The JS `Map` backing the local store is an association list with the
  `Map` invariant that keys are unique; `Map.delete` is modelled as
  removing every binding of the key (which coincides with deleting the
  single binding on every state a `Map` can reach).
* The Redis client is modelled as a list of (key, value, absolute expiry)
  entries plus a readiness flag and a failure flag (`opsFail` models
  rejected command promises, e.g. a network failure while the client
  still reports status `ready`).  Thrown JS errors are modelled with
  `Except JsError`.
* The svg renderer is out of scope (per the spec); the random text the
  renderer produced and the minted id are parameters of `generate`.
-/

/-- A JavaScript string, as its sequence of code points. -/
abbrev JSStr := List Nat

/-- ASCII case folding of one code point: models what
`String.prototype.toLowerCase` does on the captcha alphabet
(code points 65-90 map to 97-122, everything else is fixed). -/
def lowerCode (n : Nat) : Nat :=
  if 65 ≤ n ∧ n ≤ 90 then n + 32 else n

/-- Model of `s.toLowerCase()`. -/
def toLowerCase (s : JSStr) : JSStr :=
  s.map lowerCode

/-- JavaScript `x || d` on an optionally-present number: `undefined` and
`0` are falsy and give the default. -/
def jsOr (x : Option Nat) (d : Nat) : Nat :=
  match x with
  | none => d
  | some n => if n = 0 then d else n

/-- The stored challenge record (`captchaInfo` in both services). -/
structure CaptchaInfo where
  id : JSStr
  /-- `captcha.text.toLowerCase()` — the case-folded plaintext answer. -/
  text : JSStr
  type : JSStr
  createdAt : Nat
  expiresAt : Nat
  attempts : Nat
  maxAttempts : Nat
deriving Repr, DecidableEq

/-- The local service's `this.captchaStore` (a JS `Map`), as an
association list in insertion order. -/
abbrev CaptchaStore := List (JSStr × CaptchaInfo)

/-- `Map.prototype.get`: the binding of the first matching key. -/
def storeGet (store : CaptchaStore) (id : JSStr) : Option CaptchaInfo :=
  match store with
  | [] => none
  | (k, v) :: rest => if k = id then some v else storeGet rest id

/-- `Map.prototype.set`: replace the binding in place, or append. -/
def storeSet (store : CaptchaStore) (id : JSStr) (info : CaptchaInfo) : CaptchaStore :=
  match store with
  | [] => [(id, info)]
  | (k, v) :: rest =>
    if k = id then (k, info) :: rest else (k, v) :: storeSet rest id info

/-- `Map.prototype.delete`: remove every binding of the key (a `Map`
holds at most one, so this is the same operation on reachable states). -/
def storeDelete (store : CaptchaStore) (id : JSStr) : CaptchaStore :=
  match store with
  | [] => []
  | (k, v) :: rest =>
    if k = id then storeDelete rest id else (k, v) :: storeDelete rest id

/-- Outcome of `verifyCaptcha`, mirroring the JS result objects
(`success: true`, or `success: false` with the given `error` code;
`CAPTCHA_INVALID` carries the reported `attemptsLeft`). -/
inductive VerifyResult where
  | success
  | captchaNotFound
  | captchaExpired
  | captchaMaxAttempts
  | captchaInvalid (attemptsLeft : Nat)
deriving Repr, DecidableEq

/-- The code points of the string `development`. -/
def development : JSStr :=
  [100, 101, 118, 101, 108, 111, 112, 109, 101, 110, 116]

/-- The slice of `process.env` the services read. -/
structure Env where
  nodeEnv : JSStr
  devTestCaptchaId : Option JSStr
  devTestCaptchaCode : Option JSStr
deriving Repr, DecidableEq

/-- The development-mode bypass condition checked first by both
`verifyCaptcha` implementations: `process.env.NODE_ENV === 'development'
&& captchaId === process.env.DEV_TEST_CAPTCHA_ID && userInput ===
process.env.DEV_TEST_CAPTCHA_CODE` (all three `===`, case-sensitive). -/
def devMatch (env : Env) (captchaId userInput : JSStr) : Bool :=
  decide (env.nodeEnv = development) &&
    decide (env.devTestCaptchaId = some captchaId) &&
    decide (env.devTestCaptchaCode = some userInput)

/-- `CaptchaService.verifyCaptcha` (local `Map` backend): returns the
store after the call together with the result object. -/
def verifyCaptcha (env : Env) (store : CaptchaStore) (now : Nat)
    (captchaId userInput : JSStr) : CaptchaStore × VerifyResult :=
  if devMatch env captchaId userInput then
    (store, .success)
  else
    match storeGet store captchaId with
    | none => (store, .captchaNotFound)
    | some info =>
      if now > info.expiresAt then
        (storeDelete store captchaId, .captchaExpired)
      else if info.attempts ≥ info.maxAttempts then
        (storeDelete store captchaId, .captchaMaxAttempts)
      else
        -- `captchaInfo.attempts++` mutates the object held by the Map
        let info1 : CaptchaInfo := { info with attempts := info.attempts + 1 }
        if toLowerCase userInput = info1.text then
          (storeDelete store captchaId, .success)
        else
          (storeSet store captchaId info1,
            .captchaInvalid (info1.maxAttempts - info1.attempts))

/-- Options bag passed to `generateCaptcha` / `refreshCaptcha`; only the
fields that influence record construction are modelled (the rendering
options flow into `svg-captcha` only). -/
structure GenOptions where
  expireTime : Option Nat := none
  maxAttempts : Option Nat := none
deriving Repr, DecidableEq

/-- Return shape of `generateCaptcha` (the `svg` artifact is out of
scope). -/
structure GenResult where
  id : JSStr
  expiresAt : Nat
  expiresIn : Nat
deriving Repr, DecidableEq

/-- The `captchaInfo` record built by the local
`CaptchaService.generateCaptcha`: `expireTime` and `maxAttempts` come
from configuration with fallbacks 300 / 3 (`config.get(...) || 300`,
`config.get(...) || 3`); the `opts` argument flows only into the svg
rendering options, never into `expireTime` or `maxAttempts`. -/
def generateCaptchaRecord (cfgExpireTime cfgMaxAttempts : Option Nat)
    (opts : GenOptions) (captchaId text ty : JSStr) (now : Nat) : CaptchaInfo :=
  let expireTime := jsOr cfgExpireTime 300
  let maxAttempts := jsOr cfgMaxAttempts 3
  { id := captchaId
    text := toLowerCase text
    type := ty
    createdAt := now
    expiresAt := now + expireTime * 1000
    attempts := 0
    maxAttempts := maxAttempts }

/-- The local `CaptchaService.generateCaptcha`: builds the record,
stores it under the minted id, and returns id + expiry metadata.  The
minted `captchaId` and the renderer's `text` are parameters (timestamp +
randomness, and the svg renderer, live outside the model). -/
def generateCaptcha (store : CaptchaStore) (cfgExpireTime cfgMaxAttempts : Option Nat)
    (opts : GenOptions) (captchaId text ty : JSStr) (now : Nat) :
    CaptchaStore × GenResult :=
  let info := generateCaptchaRecord cfgExpireTime cfgMaxAttempts opts captchaId text ty now
  (storeSet store captchaId info,
    { id := captchaId, expiresAt := info.expiresAt, expiresIn := jsOr cfgExpireTime 300 })

/-- The local `CaptchaService.refreshCaptcha`: deletes the old record
when `captchaId` is truthy (the empty string is falsy), then generates a
fresh challenge. -/
def refreshCaptcha (store : CaptchaStore) (cfgExpireTime cfgMaxAttempts : Option Nat)
    (opts : GenOptions) (captchaId newId text ty : JSStr) (now : Nat) :
    CaptchaStore × GenResult :=
  let store1 := if captchaId = [] then store else storeDelete store captchaId
  generateCaptcha store1 cfgExpireTime cfgMaxAttempts opts newId text ty now

/-- The loop body of `cleanupExpiredCaptchas` (and of the periodic
`cleanup`): deletes every entry with `now > info.expiresAt` and counts
the deletions. -/
def cleanupExpiredCaptchas (store : CaptchaStore) (now : Nat) : CaptchaStore × Nat :=
  match store with
  | [] => ([], 0)
  | (k, v) :: rest =>
    let r := cleanupExpiredCaptchas rest now
    if now > v.expiresAt then (r.1, r.2 + 1) else ((k, v) :: r.1, r.2)

/-- The counting loop of `getStats`: (activeCount, expiredCount). -/
def countActiveExpired (store : CaptchaStore) (now : Nat) : Nat × Nat :=
  match store with
  | [] => (0, 0)
  | (_, v) :: rest =>
    let r := countActiveExpired rest now
    if now > v.expiresAt then (r.1, r.2 + 1) else (r.1 + 1, r.2)

/-- Return shape of the local `getStats`; `captchaStore` is
`Array.from(this.captchaStore)`, i.e. every (key, record) entry. -/
structure Stats where
  total : Nat
  active : Nat
  expired : Nat
  totalGenerated : Nat
  totalVerified : Nat
  activeCaptchas : Nat
  captchaStore : CaptchaStore
deriving Repr, DecidableEq

/-- The local `CaptchaService.getStats`. -/
def getStats (store : CaptchaStore) (now : Nat) : Stats :=
  let counts := countActiveExpired store now
  { total := store.length
    active := counts.1
    expired := counts.2
    totalGenerated := store.length
    totalVerified := counts.1
    activeCaptchas := counts.1
    captchaStore := store }

/-- A thrown JS error, as the services distinguish them:
`commandFailed` is a rejected Redis command promise (rethrown unchanged
by `RedisService`), `notReady` is the `Redis服务未就绪` guard throw, and
`generateFailed` / `verifyFailed` are the wrapper errors thrown by the
`catch` blocks of `generateCaptcha` / `verifyCaptcha`. -/
inductive JsError where
  | commandFailed
  | notReady
  | generateFailed
  | verifyFailed
deriving Repr, DecidableEq

/-- One Redis entry: key, stored record, absolute expiry (ms). -/
abbrev RedisEntries := List (JSStr × CaptchaInfo × Nat)

/-- The Redis client as seen through `RedisService`: its entries, the
`isReady()` status, and whether commands currently fail (a command can
reject, e.g. on a network error, even while `status === 'ready'`;
`RedisService` logs and rethrows such errors). -/
structure RedisEnv where
  entries : RedisEntries
  ready : Bool
  opsFail : Bool
deriving Repr, DecidableEq

/-- Look up a key among the raw entries (no expiry check). -/
def findEntry (entries : RedisEntries) (key : JSStr) : Option (CaptchaInfo × Nat) :=
  match entries with
  | [] => none
  | (k, v, e) :: rest => if k = key then some (v, e) else findEntry rest key

/-- Replace the entry for `key`, or append it (Redis keys are unique). -/
def setEntry (entries : RedisEntries) (key : JSStr) (v : CaptchaInfo) (exp : Nat) :
    RedisEntries :=
  match entries with
  | [] => [(key, v, exp)]
  | (k, v0, e0) :: rest =>
    if k = key then (k, v, exp) :: rest else (k, v0, e0) :: setEntry rest key v exp

/-- Remove every entry for `key` (`DEL`). -/
def delEntry (entries : RedisEntries) (key : JSStr) : RedisEntries :=
  match entries with
  | [] => []
  | (k, v0, e0) :: rest =>
    if k = key then delEntry rest key else (k, v0, e0) :: delEntry rest key

/-- `redisService.isReady()`. -/
def rIsReady (r : RedisEnv) : Bool := r.ready

/-- `redisService.get(key)`: `null` once the native expiry has evicted
the key (Redis evicts when `now ≥ expiry`). -/
def rGet (r : RedisEnv) (now : Nat) (key : JSStr) :
    Except JsError (Option CaptchaInfo) :=
  if r.opsFail then .error .commandFailed
  else
    .ok (match findEntry r.entries key with
      | none => none
      | some (v, exp) => if now < exp then some v else none)

/-- `redisService.set(key, value, ttl)` (`SETEX`, ttl in seconds). -/
def rSet (r : RedisEnv) (now : Nat) (key : JSStr) (v : CaptchaInfo) (ttlSec : Nat) :
    Except JsError RedisEnv :=
  if r.opsFail then .error .commandFailed
  else .ok { r with entries := setEntry r.entries key v (now + ttlSec * 1000) }

/-- `redisService.del(key)`. -/
def rDel (r : RedisEnv) (key : JSStr) : Except JsError RedisEnv :=
  if r.opsFail then .error .commandFailed
  else .ok { r with entries := delEntry r.entries key }

/-- `redisService.ttl(key)`: `-2` for a missing/evicted key, otherwise
the remaining seconds (Redis `TTL` reports the remaining milliseconds
rounded to the nearest second). -/
def rTtl (r : RedisEnv) (now : Nat) (key : JSStr) : Except JsError Int :=
  if r.opsFail then .error .commandFailed
  else
    .ok (match findEntry r.entries key with
      | none => -2
      | some (_, exp) => if now < exp then ((exp - now + 500) / 1000 : Nat) else -2)

/-- The `captchaInfo` record built by `CaptchaRedisService.generateCaptcha`:
here `expireTime` is `options.expireTime || 5 * TIME_CONSTANTS.MINUTE /
1000` (= 300 seconds) and `maxAttempts` is `options.maxAttempts || 3` —
both per-call overridable. -/
def generateCaptchaRecordRedis (opts : GenOptions) (captchaId text ty : JSStr)
    (now : Nat) : CaptchaInfo :=
  let expireTime := jsOr opts.expireTime 300
  let maxAttempts := jsOr opts.maxAttempts 3
  { id := captchaId
    text := toLowerCase text
    type := ty
    createdAt := now
    expiresAt := now + expireTime * 1000
    attempts := 0
    maxAttempts := maxAttempts }

/-- `CaptchaRedisService.generateCaptcha`: requires a ready client,
stores the record with TTL `expireTime`; every failure inside the `try`
is rethrown wrapped (`生成验证码失败: ...`). -/
def generateCaptchaRedis (r : RedisEnv) (opts : GenOptions)
    (captchaId text ty : JSStr) (now : Nat) :
    Except JsError (RedisEnv × GenResult) :=
  if !rIsReady r then .error .generateFailed
  else
    let expireTime := jsOr opts.expireTime 300
    let info := generateCaptchaRecordRedis opts captchaId text ty now
    match rSet r now captchaId info expireTime with
    | .error _ => .error .generateFailed
    | .ok r1 =>
      .ok (r1, { id := captchaId, expiresAt := info.expiresAt, expiresIn := expireTime })

/-- `CaptchaRedisService.verifyCaptcha`: the dev bypass precedes the
readiness check; a wrong answer re-persists the incremented attempts
only when the remaining TTL is positive; failures inside the `try` are
rethrown wrapped (`验证码验证失败`). -/
def verifyCaptchaRedis (env : Env) (r : RedisEnv) (now : Nat)
    (captchaId userInput : JSStr) : Except JsError (RedisEnv × VerifyResult) :=
  if devMatch env captchaId userInput then .ok (r, .success)
  else if !rIsReady r then .error .verifyFailed
  else
    match rGet r now captchaId with
    | .error _ => .error .verifyFailed
    | .ok none => .ok (r, .captchaNotFound)
    | .ok (some info) =>
      if now > info.expiresAt then
        match rDel r captchaId with
        | .error _ => .error .verifyFailed
        | .ok r1 => .ok (r1, .captchaExpired)
      else if info.attempts ≥ info.maxAttempts then
        match rDel r captchaId with
        | .error _ => .error .verifyFailed
        | .ok r1 => .ok (r1, .captchaMaxAttempts)
      else
        let info1 : CaptchaInfo := { info with attempts := info.attempts + 1 }
        if toLowerCase userInput = info1.text then
          match rDel r captchaId with
          | .error _ => .error .verifyFailed
          | .ok r1 => .ok (r1, .success)
        else
          match rTtl r now captchaId with
          | .error _ => .error .verifyFailed
          | .ok ttl =>
            if ttl > 0 then
              match rSet r now captchaId info1 ttl.toNat with
              | .error _ => .error .verifyFailed
              | .ok r1 => .ok (r1, .captchaInvalid (info1.maxAttempts - info1.attempts))
            else .ok (r, .captchaInvalid (info1.maxAttempts - info1.attempts))

/-- `CaptchaRedisService.refreshCaptcha`: best-effort delete guarded
only by truthiness of the id and `isReady()` — but there is no `catch`
here, so a rejected `DEL` propagates unwrapped and generation is never
reached. -/
def refreshCaptchaRedis (r : RedisEnv) (opts : GenOptions)
    (captchaId newId text ty : JSStr) (now : Nat) :
    Except JsError (RedisEnv × GenResult) :=
  match (if captchaId ≠ [] ∧ rIsReady r then rDel r captchaId else .ok r) with
  | .error e => .error e
  | .ok r1 => generateCaptchaRedis r1 opts newId text ty now

/-! ## Helper lemmas -/

theorem lowerCode_idem (n : Nat) : lowerCode (lowerCode n) = lowerCode n := by
  simp only [lowerCode]
  split
  · next h => rw [if_neg (by omega)]
  · rfl

theorem toLowerCase_idem (s : JSStr) : toLowerCase (toLowerCase s) = toLowerCase s := by
  simp only [toLowerCase, List.map_map]
  exact List.map_congr_left fun a _ => lowerCode_idem a

theorem jsOr_pos (x : Option Nat) (d : Nat) (hd : 0 < d) : 0 < jsOr x d := by
  match x with
  | none => exact hd
  | some n =>
    simp only [jsOr]
    split
    · exact hd
    · next h => omega

theorem storeGet_set_self (store : CaptchaStore) (id : JSStr) (info : CaptchaInfo) :
    storeGet (storeSet store id info) id = some info := by
  induction store with
  | nil => simp [storeSet, storeGet]
  | cons e rest ih =>
    obtain ⟨k, v⟩ := e
    by_cases h : k = id
    · simp [storeSet, storeGet, h]
    · simp [storeSet, storeGet, h, ih]

theorem storeGet_set_ne (store : CaptchaStore) (id id' : JSStr) (info : CaptchaInfo)
    (h : id' ≠ id) : storeGet (storeSet store id info) id' = storeGet store id' := by
  have h' : id ≠ id' := Ne.symm h
  induction store with
  | nil => simp [storeSet, storeGet, h']
  | cons e rest ih =>
    obtain ⟨k, v⟩ := e
    by_cases hk : k = id
    · subst hk
      simp [storeSet, storeGet, h']
    · simp only [storeSet, if_neg hk, storeGet]
      split
      · rfl
      · exact ih

theorem storeGet_delete_self (store : CaptchaStore) (id : JSStr) :
    storeGet (storeDelete store id) id = none := by
  induction store with
  | nil => rfl
  | cons e rest ih =>
    obtain ⟨k, v⟩ := e
    by_cases h : k = id
    · simp [storeDelete, h, ih]
    · simp [storeDelete, storeGet, h, ih]

theorem findEntry_set_self (entries : RedisEntries) (key : JSStr) (v : CaptchaInfo)
    (exp : Nat) : findEntry (setEntry entries key v exp) key = some (v, exp) := by
  induction entries with
  | nil => simp [setEntry, findEntry]
  | cons e rest ih =>
    obtain ⟨k, v0, e0⟩ := e
    by_cases h : k = key
    · simp [setEntry, findEntry, h]
    · simp [setEntry, findEntry, h, ih]

theorem findEntry_del_self (entries : RedisEntries) (key : JSStr) :
    findEntry (delEntry entries key) key = none := by
  induction entries with
  | nil => rfl
  | cons e rest ih =>
    obtain ⟨k, v0, e0⟩ := e
    by_cases h : k = key
    · simp [delEntry, h, ih]
    · simp [delEntry, findEntry, h, ih]

theorem findEntry_set_ne (entries : RedisEntries) (key key' : JSStr) (v : CaptchaInfo)
    (exp : Nat) (h : key' ≠ key) :
    findEntry (setEntry entries key v exp) key' = findEntry entries key' := by
  have h' : key ≠ key' := Ne.symm h
  induction entries with
  | nil => simp [setEntry, findEntry, h']
  | cons e rest ih =>
    obtain ⟨k, v0, e0⟩ := e
    by_cases hk : k = key
    · subst hk
      simp [setEntry, findEntry, h']
    · simp only [setEntry, if_neg hk, findEntry]
      split
      · rfl
      · exact ih

theorem countActiveExpired_total (store : CaptchaStore) (now : Nat) :
    (countActiveExpired store now).1 + (countActiveExpired store now).2
      = store.length := by
  induction store with
  | nil => rfl
  | cons e rest ih =>
    simp only [countActiveExpired, List.length_cons]
    split <;> omega

theorem countActiveExpired_cleanup (store : CaptchaStore) (now : Nat) :
    (countActiveExpired (cleanupExpiredCaptchas store now).1 now).2 = 0 := by
  induction store with
  | nil => rfl
  | cons e rest ih =>
    obtain ⟨k, v⟩ := e
    simp only [cleanupExpiredCaptchas]
    split
    · exact ih
    · next h => simp [countActiveExpired, h, ih]

theorem cleanupExpiredCaptchas_fst (store : CaptchaStore) (now : Nat) :
    (cleanupExpiredCaptchas store now).1
      = store.filter (fun e => decide (now ≤ e.2.expiresAt)) := by
  induction store with
  | nil => rfl
  | cons e rest ih =>
    simp only [cleanupExpiredCaptchas, List.filter]
    split
    · next h =>
      rw [decide_eq_false (by omega), ih]
    · next h =>
      rw [decide_eq_true (by omega), ih]

theorem cleanupExpiredCaptchas_snd (store : CaptchaStore) (now : Nat) :
    (cleanupExpiredCaptchas store now).2
      = (store.filter (fun e => decide (e.2.expiresAt < now))).length := by
  induction store with
  | nil => rfl
  | cons e rest ih =>
    simp only [cleanupExpiredCaptchas, List.filter]
    split
    · next h =>
      rw [decide_eq_true (by omega)]
      simp [ih]
    · next h =>
      rw [decide_eq_false (by omega), ih]

/-- In a non-development environment the test bypass never fires. -/
theorem devMatch_of_not_development (env : Env) (henv : env.nodeEnv ≠ development)
    (captchaId userInput : JSStr) : devMatch env captchaId userInput = false := by
  simp [devMatch, henv]

/-! ## Claims -/

/-- C8: for every local store state and observation time,
`stats().active + stats().expired = stats().total`, and immediately
after a sweep at the same observation time `stats().expired = 0`. -/
theorem getStats_counts_consistent (store : CaptchaStore) (now : Nat) :
    (getStats store now).active + (getStats store now).expired
        = (getStats store now).total
    ∧ (getStats (cleanupExpiredCaptchas store now).1 now).expired = 0 := by
  refine ⟨?_, ?_⟩
  · simpa [getStats] using countActiveExpired_total store now
  · simpa [getStats] using countActiveExpired_cleanup store now

/-- C10: the local `getStats()` exposes, in its `captchaStore` field,
every stored entry in full — each record including its case-folded
plaintext `text` answer — alongside the counts. -/
theorem getStats_exposes_full_store (store : CaptchaStore) (now : Nat) :
    (getStats store now).captchaStore = store
    ∧ (getStats store now).total = store.length :=
  ⟨rfl, rfl⟩

/-- C4 counterexample: at `now = 5`, a record with `expiresAt = 5`
satisfies `expiresAt ≤ now` but the sweep leaves it in place and
reports a count of 0 — the code removes only `expiresAt < now`. -/
theorem cleanup_keeps_boundary_record :
    cleanupExpiredCaptchas [([97], ⟨[97], [98], [], 0, 5, 0, 3⟩)] 5
        = ([([97], ⟨[97], [98], [], 0, 5, 0, 3⟩)], 0)
    ∧ (⟨[97], [98], [], 0, 5, 0, 3⟩ : CaptchaInfo).expiresAt ≤ 5 :=
  ⟨by decide, by decide⟩

/-- C4 (amended): the sweep removes exactly the set of records with
`expiresAt < now` (strictly earlier than the call time), returns their
count, and leaves every other record unchanged and in order. -/
theorem cleanupExpiredCaptchas_removes_strictly_expired (store : CaptchaStore) (now : Nat) :
    (cleanupExpiredCaptchas store now).1
        = store.filter (fun e => decide (now ≤ e.2.expiresAt))
    ∧ (cleanupExpiredCaptchas store now).2
        = (store.filter (fun e => decide (e.2.expiresAt < now))).length :=
  ⟨cleanupExpiredCaptchas_fst store now, cleanupExpiredCaptchas_snd store now⟩

/-- C7 counterexample: the local `generateCaptcha` under default
configuration ignores a per-call `expireTime` of 10 seconds — the
record still expires 300 seconds (300000 ms) after `createdAt`. -/
theorem generate_local_ignores_option_ttl :
    (generateCaptchaRecord none none { expireTime := some 10 } [97] [98] [] 0).expiresAt
        = 300000
    ∧ (generateCaptchaRecord none none { expireTime := some 10 } [97] [98] [] 0).createdAt
        = 0
    ∧ (300000 : Nat) ≠ 10 * 1000 :=
  ⟨rfl, rfl, by decide⟩

/-- C7 (amended): in both variants `expiresAt = createdAt + ttl * 1000`
and the ttl defaults to 300 seconds when unset; the remote variant reads
the ttl from `options.expireTime` per call, while the local variant
reads it from configuration only. -/
theorem generate_expiresAt_is_createdAt_plus_ttl (cfgE cfgM : Option Nat)
    (opts : GenOptions) (captchaId text ty : JSStr) (now : Nat) :
    (generateCaptchaRecord cfgE cfgM opts captchaId text ty now).expiresAt
        = (generateCaptchaRecord cfgE cfgM opts captchaId text ty now).createdAt
          + jsOr cfgE 300 * 1000
    ∧ (generateCaptchaRecordRedis opts captchaId text ty now).expiresAt
        = (generateCaptchaRecordRedis opts captchaId text ty now).createdAt
          + jsOr opts.expireTime 300 * 1000
    ∧ jsOr none 300 = 300 :=
  ⟨rfl, rfl, rfl⟩

/-- C9: when the development bypass condition holds (`NODE_ENV` is
`development` and the arguments equal `DEV_TEST_CAPTCHA_ID` /
`DEV_TEST_CAPTCHA_CODE`), both verify implementations answer success
while leaving every store untouched — in particular also when no record
with that id exists. -/
theorem verify_dev_bypass (env : Env) (captchaId userInput : JSStr)
    (h : devMatch env captchaId userInput = true) :
    (∀ store now, verifyCaptcha env store now captchaId userInput = (store, .success))
    ∧ (∀ r now, verifyCaptchaRedis env r now captchaId userInput = .ok (r, .success)) := by
  refine ⟨fun store now => ?_, fun r now => ?_⟩
  · simp [verifyCaptcha, h]
  · simp [verifyCaptchaRedis, h]

/-- Witness for C9: concrete development environment and empty stores. -/
theorem verify_dev_bypass_witness :
    verifyCaptcha ⟨development, some [120], some [65]⟩ [] 0 [120] [65] = ([], .success)
    ∧ verifyCaptchaRedis ⟨development, some [120], some [65]⟩ ⟨[], true, false⟩ 0 [120] [65]
        = .ok (⟨[], true, false⟩, .success) := by
  have h := verify_dev_bypass ⟨development, some [120], some [65]⟩ [120] [65] (by decide)
  exact ⟨h.1 [] 0, h.2 ⟨[], true, false⟩ 0⟩

/-- C1 counterexample: a live record with `attempts = 0` and
`maxAttempts = 1`: on the first (i.e. the `m`-th, `m = 1`) wrong call
the claim predicts `AttemptsExhausted` with deletion, but the code
answers `Invalid` with `attemptsLeft = 0` and keeps the record. -/
theorem verify_mth_wrong_call_not_exhausted :
    verifyCaptcha ⟨[], none, none⟩ [([99], ⟨[99], [97], [], 0, 1000, 0, 1⟩)] 0 [99] [98]
        = ([([99], ⟨[99], [97], [], 0, 1000, 1, 1⟩)], .captchaInvalid 0)
    ∧ VerifyResult.captchaInvalid 0 ≠ .captchaMaxAttempts :=
  ⟨by decide, by decide⟩

/-- C1 (amended): for a live record with `maxAttempts = m` holding `k`
counted wrong attempts, `k < m`, the next wrong call yields `Invalid`
with `attemptsLeft = m - (k+1)` and keeps the (incremented) record — so
the `m`-th wrong call yields `Invalid` with `attemptsLeft = 0`; only
the `(m+1)`-th call yields `AttemptsExhausted` and deletes the record,
and the `(m+2)`-th call yields `NotFound`. -/
theorem verify_wrong_attempt_progression (env : Env) (id winput : JSStr)
    (info : CaptchaInfo) (now m k : Nat)
    (henv : env.nodeEnv ≠ development)
    (hexp : ¬ now > info.expiresAt)
    (hwrong : toLowerCase winput ≠ info.text)
    (hmax : info.maxAttempts = m)
    (hk : k < m) :
    verifyCaptcha env [(id, { info with attempts := k })] now id winput
        = ([(id, { info with attempts := k + 1 })], .captchaInvalid (m - (k + 1)))
    ∧ verifyCaptcha env [(id, { info with attempts := m })] now id winput
        = ([], .captchaMaxAttempts)
    ∧ verifyCaptcha env [] now id winput = ([], .captchaNotFound) := by
  have hdev := devMatch_of_not_development env henv id winput
  refine ⟨?_, ?_, ?_⟩
  · simp [verifyCaptcha, hdev, storeGet, storeSet, hexp, hwrong, hmax, Nat.not_le.mpr hk,
      Nat.lt_iff_add_one_le.mp hk]
  · simp [verifyCaptcha, hdev, storeGet, storeDelete, hexp, hmax]
  · simp [verifyCaptcha, hdev, storeGet]

/-- Witness for C1 (amended): `m = 3`, two wrong attempts already
counted; the third wrong call still answers `Invalid 0`. -/
theorem verify_wrong_attempt_progression_witness :
    verifyCaptcha ⟨[], none, none⟩ [([99], ⟨[99], [97], [], 0, 1000, 2, 3⟩)] 0 [99] [98]
        = ([([99], ⟨[99], [97], [], 0, 1000, 3, 3⟩)], .captchaInvalid 0)
    ∧ verifyCaptcha ⟨[], none, none⟩ [([99], ⟨[99], [97], [], 0, 1000, 3, 3⟩)] 0 [99] [98]
        = ([], .captchaMaxAttempts)
    ∧ verifyCaptcha ⟨[], none, none⟩ [] 0 [99] [98] = ([], .captchaNotFound) :=
  verify_wrong_attempt_progression ⟨[], none, none⟩ [99] [98]
    ⟨[99], [97], [], 0, 1000, 0, 3⟩ 0 3 2 (by decide) (by decide) (by decide) rfl
    (by decide)

/-- C3: a stored local record whose expiry has passed answers `Expired`
(as a value) on the next verify and is deleted, so any later verify on
that id answers `NotFound`; on the remote backend, once the native TTL
has evicted the key, verify answers `NotFound` directly. -/
theorem verify_expired_record (env : Env) (store : CaptchaStore) (info : CaptchaInfo)
    (r : RedisEnv) (captchaId s s2 s3 : JSStr) (now now3 now2 : Nat)
    (henv : env.nodeEnv ≠ development)
    (hget : storeGet store captchaId = some info)
    (hexp : now > info.expiresAt)
    (hok : r.opsFail = false) (hready : r.ready = true)
    (hev : findEntry r.entries captchaId = none) :
    verifyCaptcha env store now captchaId s = (storeDelete store captchaId, .captchaExpired)
    ∧ verifyCaptcha env (storeDelete store captchaId) now3 captchaId s2
        = (storeDelete store captchaId, .captchaNotFound)
    ∧ verifyCaptchaRedis env r now2 captchaId s3 = .ok (r, .captchaNotFound) := by
  refine ⟨?_, ?_, ?_⟩
  · simp [verifyCaptcha, devMatch_of_not_development env henv, hget, hexp]
  · simp [verifyCaptcha, devMatch_of_not_development env henv, storeGet_delete_self]
  · simp [verifyCaptchaRedis, devMatch_of_not_development env henv, rIsReady, hready,
      rGet, hok, hev]

/-- Witness for C3: a concrete expired record and an evicted Redis
key. -/
theorem verify_expired_record_witness :
    verifyCaptcha ⟨[], none, none⟩ [([99], ⟨[99], [97], [], 0, 10, 0, 3⟩)] 11 [99] [98]
        = ([], .captchaExpired)
    ∧ verifyCaptcha ⟨[], none, none⟩ [] 12 [99] [100] = ([], .captchaNotFound)
    ∧ verifyCaptchaRedis ⟨[], none, none⟩ ⟨[], true, false⟩ 11 [99] [98]
        = .ok (⟨[], true, false⟩, .captchaNotFound) := by
  have h := verify_expired_record ⟨[], none, none⟩ [([99], ⟨[99], [97], [], 0, 10, 0, 3⟩)]
    ⟨[99], [97], [], 0, 10, 0, 3⟩ ⟨[], true, false⟩ [99] [98] [100] [98] 11 12 11
    (by decide) (by decide) (by decide) rfl rfl rfl
  exact h

/-- C6: the answer is stored case-folded at generation (both variants),
and — outside the development-mode bypass — verifying any input gives
exactly the same result (store effect and outcome) as verifying its
lowercased form. -/
theorem verify_case_insensitive (env : Env) (store : CaptchaStore)
    (cfgE cfgM : Option Nat) (opts : GenOptions)
    (captchaId text ty s : JSStr) (now now2 : Nat)
    (henv : env.nodeEnv ≠ development) :
    (generateCaptchaRecord cfgE cfgM opts captchaId text ty now).text = toLowerCase text
    ∧ (generateCaptchaRecordRedis opts captchaId text ty now).text = toLowerCase text
    ∧ verifyCaptcha env store now2 captchaId s
        = verifyCaptcha env store now2 captchaId (toLowerCase s) := by
  have hdev := devMatch_of_not_development env henv
  refine ⟨rfl, rfl, ?_⟩
  simp [verifyCaptcha, hdev, toLowerCase_idem]

/-- Witness for C6: uppercase input `B` against stored answer `b`. -/
theorem verify_case_insensitive_witness :
    (generateCaptchaRecord none none {} [97] [66] [] 0).text = toLowerCase [66]
    ∧ (generateCaptchaRecordRedis {} [97] [66] [] 0).text = toLowerCase [66]
    ∧ verifyCaptcha ⟨[], none, none⟩ [([97], ⟨[97], [98], [], 0, 1000, 0, 3⟩)] 0 [97] [66]
        = verifyCaptcha ⟨[], none, none⟩ [([97], ⟨[97], [98], [], 0, 1000, 0, 3⟩)] 0 [97]
            (toLowerCase [66]) :=
  verify_case_insensitive ⟨[], none, none⟩ [([97], ⟨[97], [98], [], 0, 1000, 0, 3⟩)]
    none none {} [97] [66] [] [66] 0 0 (by decide)

/-- C2: after `generate` mints an id, verifying a case-insensitive
match deletes the record and answers success, and any later verify on
that id answers `NotFound` — on both backends. -/
theorem verify_success_after_generate (env : Env) (store : CaptchaStore)
    (cfgE cfgM : Option Nat) (opts : GenOptions) (r r1 : RedisEnv) (g : GenResult)
    (captchaId text ty s s2 : JSStr) (now now2 now3 : Nat)
    (henv : env.nodeEnv ≠ development)
    (hmatch : toLowerCase s = toLowerCase text)
    (hlive : ¬ now2 > now + jsOr cfgE 300 * 1000)
    (hlive2 : now2 < now + jsOr opts.expireTime 300 * 1000)
    (hok : r.opsFail = false) (hready : r.ready = true)
    (hgen : generateCaptchaRedis r opts captchaId text ty now = .ok (r1, g)) :
    verifyCaptcha env (generateCaptcha store cfgE cfgM opts captchaId text ty now).1 now2
        captchaId s
      = (storeDelete (generateCaptcha store cfgE cfgM opts captchaId text ty now).1 captchaId,
         .success)
    ∧ verifyCaptcha env
        (storeDelete (generateCaptcha store cfgE cfgM opts captchaId text ty now).1 captchaId)
        now3 captchaId s2
      = (storeDelete (generateCaptcha store cfgE cfgM opts captchaId text ty now).1 captchaId,
         .captchaNotFound)
    ∧ verifyCaptchaRedis env r1 now2 captchaId s
      = .ok ({ r1 with entries := delEntry r1.entries captchaId }, .success)
    ∧ verifyCaptchaRedis env { r1 with entries := delEntry r1.entries captchaId } now3
        captchaId s2
      = .ok ({ r1 with entries := delEntry r1.entries captchaId }, .captchaNotFound) := by
  have hdev := devMatch_of_not_development env henv
  have hM3 : ¬ jsOr cfgM 3 ≤ 0 := by
    have := jsOr_pos cfgM 3 (by norm_num)
    omega
  have hM3' : ¬ jsOr opts.maxAttempts 3 ≤ 0 := by
    have := jsOr_pos opts.maxAttempts 3 (by norm_num)
    omega
  rw [generateCaptchaRedis] at hgen
  simp only [rIsReady, hready, Bool.not_true, Bool.false_eq_true, if_false, rSet, hok,
    Except.ok.injEq, Prod.mk.injEq] at hgen
  obtain ⟨hr1, hg⟩ := hgen
  subst hr1
  refine ⟨?_, ?_, ?_, ?_⟩
  · simp [generateCaptcha, verifyCaptcha, hdev, generateCaptchaRecord, storeGet_set_self,
      hlive, hmatch, hM3]
  · simp [verifyCaptcha, hdev, storeGet_delete_self]
  · simp [verifyCaptchaRedis, hdev, rIsReady, hready, rGet, hok, rDel,
      generateCaptchaRecordRedis, findEntry_set_self, hlive2, hmatch, hM3',
      Nat.not_lt.mpr (Nat.le_of_lt hlive2)]
  · simp [verifyCaptchaRedis, hdev, rIsReady, hready, rGet, hok, findEntry_del_self]

/-- Witness for C2: generate stores answer `B` (folded to `b`), the
user answers `b`, a second call answers `NotFound` — both backends. -/
theorem verify_success_after_generate_witness :
    verifyCaptcha ⟨[], none, none⟩ (generateCaptcha [] none none {} [97] [66] [] 0).1 5
        [97] [98]
      = (storeDelete (generateCaptcha [] none none {} [97] [66] [] 0).1 [97], .success)
    ∧ verifyCaptcha ⟨[], none, none⟩
        (storeDelete (generateCaptcha [] none none {} [97] [66] [] 0).1 [97]) 6 [97] [99]
      = (storeDelete (generateCaptcha [] none none {} [97] [66] [] 0).1 [97],
         .captchaNotFound)
    ∧ verifyCaptchaRedis ⟨[], none, none⟩
        ⟨[([97], generateCaptchaRecordRedis {} [97] [66] [] 0, 300000)], true, false⟩ 5
        [97] [98]
      = .ok (⟨[], true, false⟩, .success)
    ∧ verifyCaptchaRedis ⟨[], none, none⟩ ⟨[], true, false⟩ 6 [97] [99]
      = .ok (⟨[], true, false⟩, .captchaNotFound) := by
  have h := verify_success_after_generate ⟨[], none, none⟩ [] none none {}
    ⟨[], true, false⟩ ⟨[([97], generateCaptchaRecordRedis {} [97] [66] [] 0, 300000)], true, false⟩
    ⟨[97], 300000, 300⟩ [97] [66] [] [98] [99] 0 5 6
    (by decide) (by decide) (by decide) (by decide) rfl rfl rfl
  exact h

/-- C5 counterexample: remote backend whose client reports ready but
whose commands reject: `refreshCaptcha` propagates the raw `DEL`
failure (unwrapped, so provably from the delete step — generation
failures are wrapped as `generateFailed`) and never issues a new
challenge. -/
theorem refresh_del_failure_blocks_issuance :
    refreshCaptchaRedis ⟨[], true, true⟩ {} [97] [98] [99] [] 0 = .error .commandFailed
    ∧ JsError.commandFailed ≠ JsError.generateFailed :=
  ⟨rfl, by decide⟩

/-- C5 (amended): for every nonempty prior id, `refresh` deletes the
prior record and issues a new challenge on both backends whenever the
delete step succeeds; whenever the freshly minted id also differs from
the prior one (which the code does not itself check — it relies on
timestamp-plus-random minting), the returned id is the new one and the
original id subsequently answers `NotFound`, on both backends.  The
local delete cannot fail, but on the remote backend a failing `DEL`
command propagates and blocks issuance of the new challenge. -/
theorem refreshCaptcha_invalidates_old_id (env : Env) (store : CaptchaStore)
    (cfgE cfgM : Option Nat) (opts : GenOptions) (rOk rFail : RedisEnv)
    (captchaId newId text ty s s2 : JSStr) (now now2 now3 : Nat)
    (henv : env.nodeEnv ≠ development)
    (hid : captchaId ≠ [])
    (hne : newId ≠ captchaId)
    (hreadyO : rOk.ready = true) (hok : rOk.opsFail = false)
    (hreadyF : rFail.ready = true) (hfail : rFail.opsFail = true) :
    (refreshCaptcha store cfgE cfgM opts captchaId newId text ty now).2.id = newId
    ∧ verifyCaptcha env (refreshCaptcha store cfgE cfgM opts captchaId newId text ty now).1
        now2 captchaId s
      = ((refreshCaptcha store cfgE cfgM opts captchaId newId text ty now).1,
         .captchaNotFound)
    ∧ refreshCaptchaRedis rOk opts captchaId newId text ty now
      = .ok ({ rOk with entries := (setEntry (delEntry rOk.entries captchaId) newId
                 (generateCaptchaRecordRedis opts newId text ty now)
                 (now + jsOr opts.expireTime 300 * 1000)) },
             { id := newId, expiresAt := now + jsOr opts.expireTime 300 * 1000,
               expiresIn := jsOr opts.expireTime 300 })
    ∧ verifyCaptchaRedis env
        { rOk with entries := (setEntry (delEntry rOk.entries captchaId) newId
            (generateCaptchaRecordRedis opts newId text ty now)
            (now + jsOr opts.expireTime 300 * 1000)) } now3 captchaId s2
      = .ok ({ rOk with entries := (setEntry (delEntry rOk.entries captchaId) newId
                 (generateCaptchaRecordRedis opts newId text ty now)
                 (now + jsOr opts.expireTime 300 * 1000)) }, .captchaNotFound)
    ∧ refreshCaptchaRedis rFail opts captchaId newId text ty now
        = .error .commandFailed := by
  have hdev := devMatch_of_not_development env henv
  refine ⟨rfl, ?_, ?_, ?_, ?_⟩
  · simp [refreshCaptcha, generateCaptcha, hid, verifyCaptcha, hdev,
      storeGet_set_ne _ _ _ _ (Ne.symm hne), storeGet_delete_self]
  · simp [refreshCaptchaRedis, rIsReady, hreadyO, rDel, hok, hid,
      generateCaptchaRedis, rSet, generateCaptchaRecordRedis]
  · simp [verifyCaptchaRedis, hdev, rIsReady, hreadyO, rGet, hok,
      findEntry_set_ne _ _ _ _ _ (Ne.symm hne), findEntry_del_self]
  · simp [refreshCaptchaRedis, rIsReady, hreadyF, rDel, hfail, hid]

/-- Witness for C5: refresh over a local store and a Redis store each
holding the old id `a`; the DEL-success path issues the new challenge
under id `b` and the old id answers `NotFound`, while the
command-failure client blocks issuance. -/
theorem refreshCaptcha_invalidates_old_id_witness :
    (refreshCaptcha [([97], ⟨[97], [98], [], 0, 1000, 0, 3⟩)] none none {} [97] [98] [99]
        [] 0).2.id = [98]
    ∧ verifyCaptcha ⟨[], none, none⟩
        (refreshCaptcha [([97], ⟨[97], [98], [], 0, 1000, 0, 3⟩)] none none {} [97] [98]
          [99] [] 0).1 0 [97] [100]
      = ((refreshCaptcha [([97], ⟨[97], [98], [], 0, 1000, 0, 3⟩)] none none {} [97] [98]
          [99] [] 0).1, .captchaNotFound)
    ∧ refreshCaptchaRedis ⟨[([97], ⟨[97], [98], [], 0, 1000, 0, 3⟩, 1000)], true, false⟩
        {} [97] [98] [99] [] 0
      = .ok (⟨[([98], ⟨[98], [99], [], 0, 300000, 0, 3⟩, 300000)], true, false⟩,
             ⟨[98], 300000, 300⟩)
    ∧ verifyCaptchaRedis ⟨[], none, none⟩
        ⟨[([98], ⟨[98], [99], [], 0, 300000, 0, 3⟩, 300000)], true, false⟩ 0 [97] [101]
      = .ok (⟨[([98], ⟨[98], [99], [], 0, 300000, 0, 3⟩, 300000)], true, false⟩,
             .captchaNotFound)
    ∧ refreshCaptchaRedis ⟨[], true, true⟩ {} [97] [98] [99] [] 0
        = .error .commandFailed :=
  refreshCaptcha_invalidates_old_id ⟨[], none, none⟩
    [([97], ⟨[97], [98], [], 0, 1000, 0, 3⟩)] none none {}
    ⟨[([97], ⟨[97], [98], [], 0, 1000, 0, 3⟩, 1000)], true, false⟩ ⟨[], true, true⟩
    [97] [98] [99] [] [100] [101] 0 0 0
    (by decide) (by decide) (by decide) rfl rfl rfl rfl
